import Mathlib

/-!
Verification of the OpenBCI Cyton host-side driver
(`openbci_interface`: `core.py`, `cyton.py`, `channel_config.py`,
`util.py`, `exception.py`) against its natural-language specification.

Bytes are modelled as `Nat` (with `< 256` hypotheses where values matter),
command/reply text as `List Char`, the serial transport as an explicit
input stream (bytes to be read) plus an output log (bytes written), and
Python exceptions as explicit error values in `Except` results.
Floating-point arithmetic in the codec is modelled over `ℚ`; the scale
formulas are exact rational expressions in the source.
-/

/-! ## Binary codec (`cyton.py`) -/

/-- Value of the constant `STOP_BYTE = 0xC0` in `cyton.py`. -/
def STOP_BYTE : Nat := 0xC0

/-- Value of the constant `ADS1299VREF = 4.5` in `cyton.py`. -/
def ADS1299VREF : ℚ := 4.5

/-- Value of the constant `AUX_SCALE = 0.002 / pow(2, 4)` in `cyton.py`. -/
def AUX_SCALE : ℚ := 0.002 / 2 ^ 4

/-- Reinterpretation of four big-endian bytes as a signed 32-bit integer,
as `struct.unpack('>i', ...)` does. -/
def int32OfBEBytes (a b c d : Nat) : Int :=
  let u : Nat := ((a * 256 + b) * 256 + c) * 256 + d
  if u < 2 ^ 31 then (u : Int) else (u : Int) - 2 ^ 32

/-- Embedding of `_unpack_24bit_signed_int` in `cyton.py`: choose the
extension byte `0xFF` when bit `0x80` of the first byte is set, else
`0x00`, then reinterpret the four bytes as big-endian signed 32-bit. -/
def unpack_24bit_signed_int (b0 b1 b2 : Nat) : Int :=
  let ext : Nat := if b0 &&& 0x80 > 0 then 0xFF else 0x00
  int32OfBEBytes ext b0 b1 b2

/-- Embedding of `_unpack_16bit_signed_int` in `cyton.py`: the extension
byte is repeated twice before the two data bytes. -/
def unpack_16bit_signed_int (b0 b1 : Nat) : Int :=
  let ext : Nat := if b0 &&& 0x80 > 0 then 0xFF else 0x00
  int32OfBEBytes ext ext b0 b1

/-- Embedding of `_get_eeg_scale` in `cyton.py`:
`1000000. * ADS1299VREF / gain / (pow(2, 23) - 1)`. -/
def get_eeg_scale (gain : ℚ) : ℚ :=
  1000000 * ADS1299VREF / gain / (2 ^ 23 - 1)

/-- Embedding of `_parse_eeg` in `cyton.py`. A raw EEG value is three
bytes; `gain = none` models Python `gain is None`, in which case the
code emits a warning (`warnings.warn`) and substitutes 24. The returned
`Bool` records whether that warning was emitted. -/
def parse_eeg (b0 b1 b2 : Nat) (gain : Option Int) : ℚ × Bool :=
  match gain with
  | none => (unpack_24bit_signed_int b0 b1 b2 * get_eeg_scale 24, true)
  | some g => (unpack_24bit_signed_int b0 b1 b2 * get_eeg_scale g, false)

/-- Embedding of the list comprehension in `_parse_aux` in `cyton.py`:
each raw AUX value is two bytes, scaled by `AUX_SCALE`. The warning on a
stop byte other than `0xC0` is a logging side effect and does not change
the returned values. -/
def parse_aux (raw_data : List (List Nat)) : List ℚ :=
  raw_data.map fun v => AUX_SCALE * unpack_16bit_signed_int (v.getD 0 0) (v.getD 1 0)

/-! ## Channel configuration (`channel_config.py`) -/

/-- Python value that is either an `int` or a `str`, as accepted by the
`power_down` and `input_type` parameters. -/
inductive PyVal where
  | pint : Int → PyVal
  | pstr : String → PyVal
  deriving DecidableEq, Repr

/-- Python exceptions raised by the channel-config path: `ValueError`
carries the name of the offending field (the source message also lists
the accepted domain); `AttributeError` models `input_type.upper()` on an
`int`; `KeyError` models `vals[input_type]` on a key absent from the
dict. -/
inductive PyErr where
  | valueError : String → PyErr
  | attributeError : String → PyErr
  | keyError : PyErr
  deriving DecidableEq, Repr

/-- Lookup of the `channel` dict in `get_channel_config_command`. -/
def channelCode (channel : Int) : Option Char :=
  if channel = 1 then some '1' else if channel = 2 then some '2'
  else if channel = 3 then some '3' else if channel = 4 then some '4'
  else if channel = 5 then some '5' else if channel = 6 then some '6'
  else if channel = 7 then some '7' else if channel = 8 then some '8'
  else if channel = 9 then some 'Q' else if channel = 10 then some 'W'
  else if channel = 11 then some 'E' else if channel = 12 then some 'R'
  else if channel = 13 then some 'T' else if channel = 14 then some 'Y'
  else if channel = 15 then some 'U' else if channel = 16 then some 'I'
  else none

/-- Lookup of the `power_down` dict `{0: b'0', 'ON': b'0', 1: b'1', 'OFF': b'1'}`. -/
def powerDownCode (power_down : PyVal) : Option Char :=
  match power_down with
  | .pint 0 => some '0'
  | .pint 1 => some '1'
  | .pstr "ON" => some '0'
  | .pstr "OFF" => some '1'
  | _ => none

/-- Lookup of the `gain` dict `{1: b'0', 2: b'1', 4: b'2', 6: b'3', 8: b'4', 12: b'5', 24: b'6'}`. -/
def gainCode (gain : Int) : Option Char :=
  if gain = 1 then some '0' else if gain = 2 then some '1'
  else if gain = 4 then some '2' else if gain = 6 then some '3'
  else if gain = 8 then some '4' else if gain = 12 then some '5'
  else if gain = 24 then some '6'
  else none

/-- Lookup of the `input_type` dict restricted to its string keys
(`'NORMAL'`, ..., `'BIAS_DRN'`); the dict also has integer keys 0-7. -/
def inputTypeStrCode (s : String) : Option Char :=
  if s = "NORMAL" then some '0' else if s = "SHORTED" then some '1'
  else if s = "BIAS_MEAS" then some '2' else if s = "MVDD" then some '3'
  else if s = "TEMP" then some '4' else if s = "TESTSIG" then some '5'
  else if s = "BIAS_DRP" then some '6' else if s = "BIAS_DRN" then some '7'
  else none

/-- Uppercasing of Python's `str.upper` on the List-of-chars view of a
string (`String.toUpper` itself does not reduce in the kernel). -/
def pyUpper (s : String) : String := String.mk (s.data.map Char.toUpper)

/-- Embedding of `get_channel_config_command` in `channel_config.py`,
mirroring the source's checks in order. For `input_type` the source runs
`if input_type.upper() not in vals` and then `command.append(vals[input_type])`:
an `int` input raises `AttributeError` (no `.upper` on `int`), and a
string whose uppercasing is a key but which is not itself a key (e.g.
`'normal'`) passes the check and then raises `KeyError` on the lookup. -/
def get_channel_config_command (channel : Int) (power_down : PyVal)
    (gain : Int) (input_type : PyVal) (bias srb2 srb1 : Int) :
    Except PyErr (List Char) := do
  let cCh ← match channelCode channel with
    | none => Except.error (PyErr.valueError "channel")
    | some c => Except.ok c
  let cPd ← match powerDownCode power_down with
    | none => Except.error (PyErr.valueError "power_down")
    | some c => Except.ok c
  let cGn ← match gainCode gain with
    | none => Except.error (PyErr.valueError "gain")
    | some c => Except.ok c
  let cIt ← match input_type with
    | .pint _ => Except.error (PyErr.attributeError "upper")
    | .pstr s =>
      match inputTypeStrCode (pyUpper s) with
      | none => Except.error (PyErr.valueError "input_type")
      | some _ =>
        match inputTypeStrCode s with
        | none => Except.error PyErr.keyError
        | some c => Except.ok c
  let cBs ← match bias with
    | 0 => Except.ok '0'
    | 1 => Except.ok '1'
    | _ => Except.error (PyErr.valueError "bias")
  let cS2 ← match srb2 with
    | 0 => Except.ok '0'
    | 1 => Except.ok '1'
    | _ => Except.error (PyErr.valueError "srb2")
  let cS1 ← match srb1 with
    | 0 => Except.ok '0'
    | 1 => Except.ok '1'
    | _ => Except.error (PyErr.valueError "srb1")
  return ['x', cCh, cPd, cGn, cIt, cBs, cS2, cS1, 'X']

/-- Embedding of the `ChannelConfig` class in `channel_config.py`.
Fields default to `none` (Python `None`, "unknown"); `power_down` and
`input_type` are stored normalized to strings by `set_config`. -/
structure ChannelConfig where
  channel : Nat
  enabled : Option Bool := none
  power_down : Option PyVal := none
  gain : Option Int := none
  input_type : Option PyVal := none
  bias : Option Int := none
  srb2 : Option Int := none
  srb1 : Option Int := none
  deriving DecidableEq, Repr

/-- Embedding of `ChannelConfig.__init__(channel)` with all configuration
fields left at their `None` defaults, as in `Cyton.__init__`. -/
def ChannelConfig.init (channel : Nat) : ChannelConfig :=
  { channel := channel }

/-- Normalization of `power_down` in `ChannelConfig.set_config`:
an `int` is mapped through `{0: 'ON', 1: 'OFF'}` (any other `int` would
raise `KeyError`); a string is stored as is. -/
def normalizePowerDown (v : PyVal) : Option PyVal :=
  match v with
  | .pint 0 => some (.pstr "ON")
  | .pint 1 => some (.pstr "OFF")
  | .pint _ => none
  | .pstr s => some (.pstr s)

/-- Normalization of `input_type` in `ChannelConfig.set_config`:
an `int` is mapped through the 0-7 name table (any other `int` would
raise `KeyError`); a string is stored as is. -/
def normalizeInputType (v : PyVal) : Option PyVal :=
  match v with
  | .pint 0 => some (.pstr "NORMAL")
  | .pint 1 => some (.pstr "SHORTED")
  | .pint 2 => some (.pstr "BIAS_MEAS")
  | .pint 3 => some (.pstr "MVDD")
  | .pint 4 => some (.pstr "TEMP")
  | .pint 5 => some (.pstr "TESTSIG")
  | .pint 6 => some (.pstr "BIAS_DRP")
  | .pint 7 => some (.pstr "BIAS_DRN")
  | .pint _ => none
  | .pstr s => some (.pstr s)

/-- Embedding of `ChannelConfig.set_config`: updates every configuration
field except `channel` and `enabled`; `none` models the `KeyError` path
for an out-of-table integer. -/
def ChannelConfig.set_config (cfg : ChannelConfig) (power_down : PyVal)
    (gain : Int) (input_type : PyVal) (bias srb2 srb1 : Int) :
    Option ChannelConfig := do
  let pd ← normalizePowerDown power_down
  let it ← normalizeInputType input_type
  return { cfg with
    power_down := some pd, gain := some gain, input_type := some it,
    bias := some bias, srb2 := some srb2, srb1 := some srb1 }

/-! ## Streaming packet acquisition (`core.py`, class `CytonBoard`) -/

/-- Value of the constant `CytonBoard.START_BYTE = 0xA0` in `core.py`. -/
def START_BYTE : Nat := 0xA0

/-- Errors arising while reading binary sample data.
`sampleAcquisitionTimeout` — Modelled from the spec: the class
`SampleAcquisitionTimeout` is raised by `CytonBoard.wait_start_byte` and
referenced by the tests, but its declaration is missing from
`exception.py`; the spec's error taxonomy defines it as "no start byte
found before transport timeout during streaming".
`truncatedRead` models the `struct.error` Python would raise when a
fixed-size read returns fewer bytes than requested. -/
inductive ReadErr where
  | sampleAcquisitionTimeout
  | truncatedRead
  deriving DecidableEq, Repr

/-- Embedding of the loop body of `CytonBoard.wait_start_byte`:
`n_skipped` is the accumulator; an empty read (exhausted stream) models
the transport timeout. -/
def wait_start_byte_go (n_skipped : Nat) : List Nat → Except ReadErr (Nat × List Nat)
  | [] => Except.error ReadErr.sampleAcquisitionTimeout
  | b :: rest =>
    if b = START_BYTE then Except.ok (n_skipped, rest)
    else wait_start_byte_go (n_skipped + 1) rest

/-- Embedding of `CytonBoard.wait_start_byte` in `core.py`: consume
bytes until the start byte `0xA0`, returning the number of skipped bytes
(logged as a warning when nonzero) and the remaining stream. -/
def wait_start_byte (s : List Nat) : Except ReadErr (Nat × List Nat) :=
  wait_start_byte_go 0 s

/-- Read of exactly `n` bytes from the stream (`serial.read(n)` followed
by a fixed-size unpack); `none` when fewer than `n` bytes remain. -/
def readN (n : Nat) (s : List Nat) : Option (List Nat × List Nat) :=
  if n ≤ s.length then some (s.take n, s.drop n) else none

/-- Read of `count` chunks of `size` bytes each, as the comprehensions in
`CytonBoard._read_eeg_data` (8 × 3 bytes) and `_read_aux_data` (3 × 2
bytes) do. -/
def readChunks (count size : Nat) (s : List Nat) :
    Option (List (List Nat) × List Nat) :=
  match count with
  | 0 => some ([], s)
  | k + 1 => do
    let (c, s1) ← readN size s
    let (cs, s2) ← readChunks k size s1
    return (c :: cs, s2)

/-- Raw 32-byte packet body as returned by `CytonBoard.read_packet`. -/
structure RawPacket where
  packet_id : Nat
  eeg : List (List Nat)
  aux : List (List Nat)
  stop_byte : Nat
  deriving DecidableEq, Repr

/-- Embedding of `CytonBoard.read_packet` in `core.py`: packet id (1
byte), 8 × 3 bytes of EEG, 3 × 2 bytes of AUX, stop byte (1 byte). -/
def read_packet (s : List Nat) : Option (RawPacket × List Nat) := do
  let (pid, s1) ← readN 1 s
  let (eeg, s2) ← readChunks 8 3 s1
  let (aux, s3) ← readChunks 3 2 s2
  let (sb, s4) ← readN 1 s3
  return ({ packet_id := pid.getD 0 0, eeg := eeg, aux := aux,
            stop_byte := sb.getD 0 0 }, s4)

/-! ## Textual replies (`Common.read_message`, `util.validate_message`) -/

/-- Message-validation failures raised by `util.validate_message`:
`UnexpectedMessageFormat` (the spec's `MalformedReply` condition) and
`DeviceNotConnected` (the spec's `DeviceNotResponding` condition). -/
inductive MsgErr where
  | unexpectedMessageFormat
  | deviceNotConnected
  deriving DecidableEq, Repr

/-- Loop of `serial.read_until(b'$$$')`: accumulate bytes (in reverse)
until the accumulated data ends with `$$$` or the stream is exhausted
(timeout); the terminator is included in the returned message. -/
def read_until_go (acc : List Char) : List Char → List Char × List Char
  | [] => (acc.reverse, [])
  | c :: rest =>
    if (c :: acc).take 3 = ['$', '$', '$'] then ((c :: acc).reverse, rest)
    else read_until_go (c :: acc) rest

/-- Embedding of `Common.read_message` at the transport level:
`self._serial.read_until(b'$$$')`. -/
def read_until (s : List Char) : List Char × List Char :=
  read_until_go [] s

/-- Contiguous-substring test, as Python's `in` operator on strings. -/
def containsSub (pat : List Char) : List Char → Bool
  | [] => pat.isEmpty
  | c :: rest => pat.isPrefixOf (c :: rest) || containsSub pat rest

/-- Test that a message ends with the `$$$` terminator, as
`message.endswith('$$$')`. -/
def endsWithTerm (m : List Char) : Bool :=
  m.reverse.take 3 = ['$', '$', '$']

/-- Reply string of a USB dongle whose board did not answer, recognized
by `util.validate_message`. -/
def deviceFailStr : List Char := "Device failed to poll Host".toList

/-- Embedding of `util.validate_message`: first the terminator check
(raising `UnexpectedMessageFormat`), then the device-failure substring
check (raising `DeviceNotConnected`); `none` means the message is
accepted. -/
def validate_message (m : List Char) : Option MsgErr :=
  if ¬ endsWithTerm m then some MsgErr.unexpectedMessageFormat
  else if containsSub deviceFailStr m then some MsgErr.deviceNotConnected
  else none

/-! ## Sample-rate reply parsing (`cyton.py`, `_parse_sample_rate`) -/

/-- Characters matched by the regex class `\s`. -/
def isPySpace (c : Char) : Bool :=
  c = ' ' || c = '\t' || c = '\n' || c = '\r' || c = '\x0b' || c = '\x0c'

/-- Maximal leading run of ASCII digits, as the greedy `\d+`. -/
def takeDigitRun : List Char → List Char × List Char
  | [] => ([], [])
  | c :: rest =>
    if c.isDigit then
      let (d, r) := takeDigitRun rest
      (c :: d, r)
    else ([], c :: rest)

/-- Drop of the maximal leading run of whitespace, as the greedy `\s*`. -/
def dropSpaceRun : List Char → List Char
  | [] => []
  | c :: rest => if isPySpace c then dropSpaceRun rest else c :: rest

/-- Decimal value of a digit string, as Python `int`. -/
def digitsToNat (ds : List Char) : Nat :=
  ds.foldl (fun n c => 10 * n + (c.toNat - 48)) 0

/-- Literal tail `Hz$$$` of the sample-rate regex. -/
def hzTerm : List Char := "Hz$$$".toList

/-- Attempt to match `\s(\d+)\s*Hz\$\$\$` at the head of the list. -/
def srTryHere : List Char → Option Nat
  | [] => none
  | c :: rest =>
    if isPySpace c then
      let (ds, r1) := takeDigitRun rest
      if ds.isEmpty then none
      else if hzTerm.isPrefixOf (dropSpaceRun r1) then some (digitsToNat ds)
      else none
    else none

/-- Scan for the regex `.*\s(\d+)\s*Hz\$\$\$` anchored at the start
(`re.match`): the greedy `.*` (which does not match newlines) selects
the last position where the rest of the pattern matches; `okPre` records
that the prefix consumed by `.*` so far is newline-free. -/
def srScan (okPre : Bool) : List Char → Option Nat
  | [] => none
  | c :: rest =>
    match srScan (okPre && c != '\n') rest with
    | some v => some v
    | none => if okPre then srTryHere (c :: rest) else none

/-- Embedding of `_parse_sample_rate` in `cyton.py`: `none` models the
warn-and-return-`None` path on a failed match. -/
def parse_sample_rate (m : List Char) : Option Nat :=
  srScan true m

/-! ## Session state machine (`cyton.py`, class `Cyton`) -/

/-- Session state of the `Cyton` class plus an explicit serial
transport: `instream` holds the pending textual reply bytes and
`written` the command bytes written so far. The binary streaming path
reads from a separate byte stream passed to `Cyton.read_sample`
directly. Field defaults are the assignments of `Cyton.__init__`. -/
structure Cyton where
  instream : List Char
  written : List Char := []
  board_info : Option (List Char) := none
  firmware_version : Option (List Char) := none
  board_mode : Option (List Char) := none
  sample_rate : Option Nat := none
  streaming : Bool := false
  wifi_attached : Bool := false
  channel_configs : List ChannelConfig := (List.range 16).map ChannelConfig.init
  daisy_attached : Bool := false
  deriving DecidableEq, Repr

/-- Errors surfaced by `Cyton` command operations: `valueError` for
domain checks, `runtimeError` for a `'failure'` acknowledgement,
`reply` for message-validation failures, `py` for the channel-config
builder's exceptions. -/
inductive OpErr where
  | valueError
  | runtimeError
  | reply : MsgErr → OpErr
  | py : PyErr → OpErr
  deriving DecidableEq, Repr

/-- Embedding of `Cyton.read_message`: read one `$$$`-terminated chunk
from the transport, then validate it. The chunk is consumed from the
stream even when validation fails (the Python read happens first). -/
def Cyton.read_message (st : Cyton) : Cyton × Except MsgErr (List Char) :=
  let p := read_until st.instream
  let st1 := { st with instream := p.2 }
  match validate_message p.1 with
  | some e => (st1, Except.error e)
  | none => (st1, Except.ok p.1)

/-- Embedding of `Cyton.start_streaming`: `Common.start_streaming`
writes `b'b'`, then `streaming` is set, then (only if `wifi_attached`)
one acknowledgement message is read. -/
def Cyton.start_streaming (st : Cyton) : Cyton × Except MsgErr Unit :=
  let st1 := { st with written := st.written ++ ['b'], streaming := true }
  if st1.wifi_attached then
    let p := st1.read_message
    (p.1, p.2.map fun _ => ())
  else (st1, Except.ok ())

/-- Embedding of `Cyton.stop_streaming`: writes `b's'`, clears
`streaming`, and reads one acknowledgement only if `wifi_attached`. -/
def Cyton.stop_streaming (st : Cyton) : Cyton × Except MsgErr Unit :=
  let st1 := { st with written := st.written ++ ['s'], streaming := false }
  if st1.wifi_attached then
    let p := st1.read_message
    (p.1, p.2.map fun _ => ())
  else (st1, Except.ok ())

/-- Substring recognized by `Cyton.get_wifi_status`. -/
def notPresentStr : List Char := "not present".toList

/-- Embedding of `Cyton.get_wifi_status`: `Common.query_wifi_status`
writes `b':'`, one message is read, then `wifi_attached` is set to
whether `'not present'` does not occur in the message, and the message
is returned. -/
def Cyton.get_wifi_status (st : Cyton) : Cyton × Except MsgErr (List Char) :=
  let st1 := { st with written := st.written ++ [':'] }
  let p := st1.read_message
  match p.2 with
  | Except.error e => (p.1, Except.error e)
  | Except.ok m =>
    ({ p.1 with wifi_attached := ¬ containsSub notPresentStr m }, Except.ok m)

/-- Lookup of the `vals` dict in `Cyton.set_sample_rate`:
`{250: b'6', 500: b'5', 1000: b'4', 2000: b'3', 4000: b'2', 8000: b'1', 16000: b'0'}`. -/
def sample_rate_code (r : Nat) : Option Char :=
  if r = 250 then some '6' else if r = 500 then some '5'
  else if r = 1000 then some '4' else if r = 2000 then some '3'
  else if r = 4000 then some '2' else if r = 8000 then some '1'
  else if r = 16000 then some '0' else none

/-- Accepted code bytes of `Common.set_sample_rate` in `core.py`. -/
def commonSampleRateBytes : List Char := ['6', '5', '4', '3', '2', '1', '0']

/-- Embedding of `Cyton.set_sample_rate`: the dict lookup raises
`ValueError` before any write; `Common.set_sample_rate` validates the
code byte again and writes `b'~' + code`; then one message is read and
parsed, and the result stored in `sample_rate`. -/
def Cyton.set_sample_rate (st : Cyton) (r : Nat) :
    Cyton × Except OpErr (Option Nat) :=
  match sample_rate_code r with
  | none => (st, Except.error OpErr.valueError)
  | some c =>
    if c ∈ commonSampleRateBytes then
      let st1 := { st with written := st.written ++ ['~', c] }
      let p := st1.read_message
      match p.2 with
      | Except.error e => (p.1, Except.error (OpErr.reply e))
      | Except.ok m =>
        let sr := parse_sample_rate m
        ({ p.1 with sample_rate := sr }, Except.ok sr)
    else (st, Except.error OpErr.valueError)

/-- Substring recognized as a device failure acknowledgement. -/
def failureStr : List Char := "failure".toList

/-- Embedding of `Cyton.configure_channel`: build the 9-byte command
(validation happens there, before any write), write it, update the
cached `ChannelConfig`, and read an acknowledgement only when not
streaming or wifi is attached; a `'failure'` substring in the lowercased
acknowledgement raises `RuntimeError`. -/
def Cyton.configure_channel (st : Cyton) (channel : Int) (power_down : PyVal)
    (gain : Int) (input_type : PyVal) (bias srb2 srb1 : Int) :
    Cyton × Except OpErr Unit :=
  match get_channel_config_command channel power_down gain input_type bias srb2 srb1 with
  | Except.error e => (st, Except.error (OpErr.py e))
  | Except.ok cmd =>
    let st1 := { st with written := st.written ++ cmd }
    let idx := (channel - 1).toNat
    let old := st1.channel_configs.getD idx (ChannelConfig.init 0)
    match old.set_config power_down gain input_type bias srb2 srb1 with
    | none => (st1, Except.error (OpErr.py PyErr.keyError))
    | some cfg =>
      let st2 := { st1 with channel_configs := st1.channel_configs.set idx cfg }
      if ¬ st2.streaming ∨ st2.wifi_attached then
        let p := st2.read_message
        match p.2 with
        | Except.error e => (p.1, Except.error (OpErr.reply e))
        | Except.ok m =>
          if containsSub failureStr (m.map Char.toLower) then
            (p.1, Except.error OpErr.runtimeError)
          else (p.1, Except.ok ())
      else (st2, Except.ok ())

/-- Gain cached for channel index `i` (0-based), as
`self.channel_configs[i].gain` in `Cyton._parse_eeg`. -/
def Cyton.gainAt (st : Cyton) (i : Nat) : Option Int :=
  match st.channel_configs.get? i with
  | some c => c.gain
  | none => none

/-- Decoded sample as returned by `Cyton.read_sample` (the wall-clock
`timestamp` field is real time and is not modelled). -/
structure Sample where
  packet_id : Nat
  eeg : List ℚ
  aux : List ℚ
  deriving DecidableEq, Repr

/-- Embedding of `Cyton._parse_eeg` (the method): each 3-byte raw value
is decoded with the gain cached for its channel index. -/
def Cyton.parse_eeg_list (st : Cyton) (raws : List (List Nat)) : List ℚ :=
  raws.enum.map fun p =>
    (parse_eeg (p.2.getD 0 0) (p.2.getD 1 0) (p.2.getD 2 0) (st.gainAt p.1)).1

/-- Embedding of `Cyton._read_packet`: wait for the start byte, read the
32-byte packet body, and decode the EEG and AUX values. -/
def Cyton.read_packet_parsed (st : Cyton) (s : List Nat) :
    Except ReadErr (Sample × List Nat) := do
  let (_nskip, s1) ← wait_start_byte s
  match read_packet s1 with
  | none => Except.error ReadErr.truncatedRead
  | some (p, s2) =>
    Except.ok ({ packet_id := p.packet_id, eeg := st.parse_eeg_list p.eeg,
                 aux := parse_aux p.aux }, s2)

/-- Embedding of `Cyton.read_sample`: one packet, then — when
`daisy_attached` — a second packet whose EEG channels are appended to
the first packet's; packet id and AUX values come from the first
packet. -/
def Cyton.read_sample (st : Cyton) (s : List Nat) :
    Except ReadErr (Sample × List Nat) := do
  let (p1, s1) ← st.read_packet_parsed s
  if st.daisy_attached then do
    let (p2, s2) ← st.read_packet_parsed s1
    return ({ p1 with eeg := p1.eeg ++ p2.eeg }, s2)
  else
    return (p1, s1)

/-! ## Helper lemmas -/

set_option maxRecDepth 2048 in
/-- Bit test `b &&& 0x80 > 0` agrees with `128 ≤ b` on byte values. -/
theorem and128_iff : ∀ b : Nat, b < 256 → ((b &&& 128 > 0) ↔ 128 ≤ b) := by decide

/-- Generic skipping lemma for the start-byte loop. -/
theorem wait_start_byte_go_skip (junk : List Nat) (rest : List Nat) (n : Nat)
    (h : ∀ b ∈ junk, b ≠ START_BYTE) :
    wait_start_byte_go n (junk ++ START_BYTE :: rest) =
      Except.ok (n + junk.length, rest) := by
  induction junk generalizing n with
  | nil => simp [wait_start_byte_go]
  | cons b bs ih =>
    have hb : b ≠ START_BYTE := h b (by simp)
    have ih2 := ih (n + 1) (fun x hx => h x (by simp [hx]))
    have step : wait_start_byte_go n ((b :: bs) ++ START_BYTE :: rest) =
        wait_start_byte_go (n + 1) (bs ++ START_BYTE :: rest) := by
      simp [wait_start_byte_go, hb]
    rw [step, ih2]
    have heq : n + 1 + bs.length = n + (b :: bs).length := by
      simp [List.length_cons]
      omega
    rw [heq]

/-- Generic timeout lemma for the start-byte loop. -/
theorem wait_start_byte_go_timeout (junk : List Nat) (n : Nat)
    (h : ∀ b ∈ junk, b ≠ START_BYTE) :
    wait_start_byte_go n junk = Except.error ReadErr.sampleAcquisitionTimeout := by
  induction junk generalizing n with
  | nil => rfl
  | cons b bs ih =>
    have hb : b ≠ START_BYTE := h b (by simp)
    simp only [wait_start_byte_go, if_neg hb]
    exact ih (n + 1) (fun x hx => h x (by simp [hx]))

/-! ## C1 -/

/-- C1: during streaming, `wait_start_byte` skips and counts every byte
that is not the start byte `0xA0` without failing, returning the skip
count once `0xA0` is observed; and it raises `SampleAcquisitionTimeout`
when a single-byte read returns zero bytes (exhausted stream) before a
start byte is seen. -/
theorem C1_wait_start_byte (junk rest : List Nat)
    (h : ∀ b ∈ junk, b ≠ 0xA0) :
    wait_start_byte (junk ++ 0xA0 :: rest) = Except.ok (junk.length, rest) ∧
    wait_start_byte junk = Except.error ReadErr.sampleAcquisitionTimeout := by
  constructor
  · have := wait_start_byte_go_skip junk rest 0 h
    simpa [wait_start_byte] using this
  · exact wait_start_byte_go_timeout junk 0 h

/-- Witness for C1 at the concrete stream `[0x77] ++ 0xA0 :: [0x01]`. -/
theorem C1_wait_start_byte_witness :
    wait_start_byte ([0x77] ++ 0xA0 :: [0x01]) = Except.ok (1, [0x01]) ∧
    wait_start_byte [0x77] = Except.error ReadErr.sampleAcquisitionTimeout :=
  C1_wait_start_byte [0x77] [0x01] (by decide)

/-! ## C3 -/

/-- C3: `interpret_24bit_as_int32` returns the two's-complement value of
its 24-bit big-endian input (subtracting `2^24` exactly when the sign
bit `0x80` of the first byte is set), always in `[-2^23, 2^23)`; and
`interpret_16bit_as_int32` analogously returns the two's-complement
16-bit value in `[-2^15, 2^15)`. -/
theorem C3_sign_extension (b0 b1 b2 c0 c1 : Nat)
    (h0 : b0 < 256) (h1 : b1 < 256) (h2 : b2 < 256)
    (g0 : c0 < 256) (g1 : c1 < 256) :
    (unpack_24bit_signed_int b0 b1 b2 =
       (b0 * 65536 + b1 * 256 + b2 : Int) - (if 128 ≤ b0 then 2 ^ 24 else 0) ∧
     -(2 ^ 23) ≤ unpack_24bit_signed_int b0 b1 b2 ∧
     unpack_24bit_signed_int b0 b1 b2 < 2 ^ 23) ∧
    (unpack_16bit_signed_int c0 c1 =
       (c0 * 256 + c1 : Int) - (if 128 ≤ c0 then 2 ^ 16 else 0) ∧
     -(2 ^ 15) ≤ unpack_16bit_signed_int c0 c1 ∧
     unpack_16bit_signed_int c0 c1 < 2 ^ 15) := by
  have hb := and128_iff b0 h0
  have hc := and128_iff c0 g0
  constructor
  · simp only [unpack_24bit_signed_int, int32OfBEBytes]
    by_cases hs : 128 ≤ b0
    · rw [if_pos (hb.mpr hs)]
      split_ifs with hlt <;> push_cast <;> omega
    · rw [if_neg (fun hgt => hs (hb.mp hgt))]
      split_ifs with hlt <;> push_cast <;> omega
  · simp only [unpack_16bit_signed_int, int32OfBEBytes]
    by_cases hs : 128 ≤ c0
    · rw [if_pos (hc.mpr hs)]
      split_ifs with hlt <;> push_cast <;> omega
    · rw [if_neg (fun hgt => hs (hc.mp hgt))]
      split_ifs with hlt <;> push_cast <;> omega

/-- Witness for C3 at the spec's sample bytes `0xD1 0x2B 0x02` and
`0x01 0xB0`. -/
theorem C3_sign_extension_witness :
    (unpack_24bit_signed_int 0xD1 0x2B 0x02 =
       (0xD1 * 65536 + 0x2B * 256 + 0x02 : Int) - (if 128 ≤ 0xD1 then 2 ^ 24 else 0) ∧
     -(2 ^ 23) ≤ unpack_24bit_signed_int 0xD1 0x2B 0x02 ∧
     unpack_24bit_signed_int 0xD1 0x2B 0x02 < 2 ^ 23) ∧
    (unpack_16bit_signed_int 0x01 0xB0 =
       (0x01 * 256 + 0xB0 : Int) - (if 128 ≤ 0x01 then 2 ^ 16 else 0) ∧
     -(2 ^ 15) ≤ unpack_16bit_signed_int 0x01 0xB0 ∧
     unpack_16bit_signed_int 0x01 0xB0 < 2 ^ 15) :=
  C3_sign_extension 0xD1 0x2B 0x02 0x01 0xB0
    (by decide) (by decide) (by decide) (by decide) (by decide)

/-! ## C5 -/

/-- C5: for every 3-byte raw EEG value and every gain `g` in the ladder
`{1, 2, 4, 6, 8, 12, 24}`, the decoded EEG value equals
`interpret_24bit_as_int32(raw) * (1000000 * 4.5 / g / (2^23 - 1))`; and
when the gain is unset (`none`) the decoder substitutes 24 and emits a
warning-level signal (the `true` flag) rather than an error. -/
theorem C5_eeg_decode (b0 b1 b2 : Nat) (g : Int)
    (hg : g ∈ ([1, 2, 4, 6, 8, 12, 24] : List Int)) :
    parse_eeg b0 b1 b2 (some g) =
      (unpack_24bit_signed_int b0 b1 b2 *
        (1000000 * (4.5 : ℚ) / (g : ℚ) / (2 ^ 23 - 1)), false) ∧
    parse_eeg b0 b1 b2 none =
      (unpack_24bit_signed_int b0 b1 b2 *
        (1000000 * (4.5 : ℚ) / 24 / (2 ^ 23 - 1)), true) :=
  ⟨rfl, rfl⟩

/-- Witness for C5 at the spec's sample raw bytes `0xD1 0x2B 0x02` and
gain 24. -/
theorem C5_eeg_decode_witness :
    (24 ∈ ([1, 2, 4, 6, 8, 12, 24] : List Int)) ∧
    (parse_eeg 0xD1 0x2B 0x02 (some 24) =
      (unpack_24bit_signed_int 0xD1 0x2B 0x02 *
        (1000000 * (4.5 : ℚ) / ((24 : Int) : ℚ) / (2 ^ 23 - 1)), false) ∧
     parse_eeg 0xD1 0x2B 0x02 none =
      (unpack_24bit_signed_int 0xD1 0x2B 0x02 *
        (1000000 * (4.5 : ℚ) / 24 / (2 ^ 23 - 1)), true)) :=
  ⟨by decide, C5_eeg_decode 0xD1 0x2B 0x02 24 (by decide)⟩

/-! ## C2 -/

/-- C2 (code-bug evidence): `get_channel_config_command` does reject
`gain = 5` with a `ValueError` naming `gain` before any byte is written
(`configure_channel` leaves the state untouched), but the documented
acceptance of `input_type` as an integer raises `AttributeError`
(`input_type.upper()` on an `int`), and the documented case-insensitive
string acceptance raises `KeyError` on a lowercase string
(`vals[input_type]` uses the original, non-uppercased key); a lowercase
`power_down` string is likewise rejected. A fully uppercase, in-domain
call succeeds. -/
theorem C2_configure_channel_validation :
    get_channel_config_command 1 (PyVal.pstr "ON") 24 (PyVal.pint 0) 1 1 0 =
      Except.error (PyErr.attributeError "upper") ∧
    get_channel_config_command 1 (PyVal.pstr "ON") 24 (PyVal.pstr "normal") 1 1 0 =
      Except.error PyErr.keyError ∧
    get_channel_config_command 1 (PyVal.pstr "on") 24 (PyVal.pstr "NORMAL") 1 1 0 =
      Except.error (PyErr.valueError "power_down") ∧
    get_channel_config_command 1 (PyVal.pstr "ON") 5 (PyVal.pstr "NORMAL") 1 1 0 =
      Except.error (PyErr.valueError "gain") ∧
    (∀ st : Cyton,
      st.configure_channel 1 (PyVal.pstr "ON") 5 (PyVal.pstr "NORMAL") 1 1 0 =
        (st, Except.error (OpErr.py (PyErr.valueError "gain")))) ∧
    get_channel_config_command 2 (PyVal.pstr "OFF") 8 (PyVal.pstr "MVDD") 0 1 0 =
      Except.ok ['x', '2', '1', '4', '3', '0', '1', '0', 'X'] :=
  ⟨rfl, rfl, rfl, rfl, fun _ => rfl, rfl⟩

/-! ## C6 -/

/-- C6 counterexample: the message `Device failed to poll Host` (no
`$$$` terminator) contains the known device string, yet validation
raises `UnexpectedMessageFormat`, not `DeviceNotConnected` — the
terminator check runs first, so the claim's "raises DeviceNotResponding
whenever the message contains the device string" is false. -/
theorem C6_counterexample :
    containsSub deviceFailStr "Device failed to poll Host".toList = true ∧
    validate_message "Device failed to poll Host".toList =
      some MsgErr.unexpectedMessageFormat ∧
    MsgErr.unexpectedMessageFormat ≠ MsgErr.deviceNotConnected :=
  ⟨rfl, rfl, by decide⟩

/-- C6 amended: validation raises `UnexpectedMessageFormat` (the
`MalformedReply` condition) exactly when the message does not end with
`$$$`; when the message does end with `$$$` and contains the known
device string it raises the distinct `DeviceNotConnected` (the
`DeviceNotResponding` condition); otherwise the message is accepted. -/
theorem C6_validate_message (m : List Char) :
    (validate_message m = some MsgErr.unexpectedMessageFormat ↔
      endsWithTerm m = false) ∧
    (endsWithTerm m = true → containsSub deviceFailStr m = true →
      validate_message m = some MsgErr.deviceNotConnected) ∧
    (endsWithTerm m = true → containsSub deviceFailStr m = false →
      validate_message m = none) ∧
    MsgErr.unexpectedMessageFormat ≠ MsgErr.deviceNotConnected := by
  refine ⟨?_, ?_, ?_, by decide⟩ <;>
    by_cases h1 : endsWithTerm m = true <;>
    by_cases h2 : containsSub deviceFailStr m = true <;>
    simp [validate_message, h1, h2]

/-- Witness for C6 at a terminated device-failure message. -/
theorem C6_validate_message_witness :
    validate_message "Device failed to poll Host$$$".toList =
      some MsgErr.deviceNotConnected :=
  (C6_validate_message _).2.1 rfl rfl

/-! ## C8 -/

/-- C8 counterexample: at session initialization the first slot (the
1st slot, counting from 1) has channel index 0, not 1 — the constructor
loop is `ChannelConfig(i) for i in range(16)`, so channel indices are
0-based. -/
theorem C8_counterexample :
    (({ instream := [] } : Cyton).channel_configs.getD 0
        (ChannelConfig.init 99)).channel = 0 ∧
    (0 : Nat) ≠ 1 :=
  ⟨rfl, by decide⟩

/-- C8 amended: at session initialization exactly 16 `ChannelConfig`
slots are allocated regardless of daisy status, every configuration
field of every slot is unknown (`none`), the i-th slot (counting from
1) has the 0-based channel index i-1, and `set_config` never changes
the channel index. -/
theorem C8_channel_config_init (s : List Char) (i : Nat) (hi : i < 16)
    (cfg cfg' : ChannelConfig) (pd it : PyVal) (g b s2 s1 : Int)
    (hset : cfg.set_config pd g it b s2 s1 = some cfg') :
    ({ instream := s } : Cyton).channel_configs.length = 16 ∧
    ({ instream := s } : Cyton).channel_configs.getD i (ChannelConfig.init 99) =
      { channel := i, enabled := none, power_down := none, gain := none,
        input_type := none, bias := none, srb2 := none, srb1 := none } ∧
    cfg'.channel = cfg.channel := by
  refine ⟨rfl, ?_, ?_⟩
  · interval_cases i <;> rfl
  · cases hpd : normalizePowerDown pd with
    | none => simp [ChannelConfig.set_config, hpd] at hset
    | some v =>
      cases hit : normalizeInputType it with
      | none => simp [ChannelConfig.set_config, hpd, hit] at hset
      | some w =>
        simp [ChannelConfig.set_config, hpd, hit] at hset
        rw [← hset]

/-- Witness for C8 at slot 3 and a concrete `set_config` call on the
slot with channel index 5. -/
theorem C8_channel_config_init_witness :
    ({ instream := [] } : Cyton).channel_configs.length = 16 ∧
    ({ instream := [] } : Cyton).channel_configs.getD 3 (ChannelConfig.init 99) =
      { channel := 3, enabled := none, power_down := none, gain := none,
        input_type := none, bias := none, srb2 := none, srb1 := none } ∧
    ({ channel := 5, enabled := none, power_down := some (PyVal.pstr "ON"),
       gain := some 24, input_type := some (PyVal.pstr "NORMAL"),
       bias := some 1, srb2 := some 1, srb1 := some 0 } : ChannelConfig).channel =
      (ChannelConfig.init 5).channel :=
  C8_channel_config_init [] 3 (by decide) (ChannelConfig.init 5) _
    (PyVal.pstr "ON") (PyVal.pstr "NORMAL") 24 1 1 0 rfl

/-! ## C4 -/

/-- Computation rule for `Except` bind on a success value. -/
theorem except_bind_ok {α β ε : Type} (v : α) (f : α → Except ε β) :
    (Except.ok v >>= f : Except ε β) = f v := rfl

/-- Computation rule for `Except` map on a success value. -/
theorem except_map_ok {α β ε : Type} (v : α) (f : α → β) :
    (f <$> (Except.ok v : Except ε α) : Except ε β) = Except.ok (f v) := rfl

/-- Reading exactly the first `l.length` bytes of `l ++ r` yields `l`. -/
theorem readN_exact (l r : List Nat) : readN l.length (l ++ r) = some (l, r) := by
  have h : l.length ≤ (l ++ r).length := by simp
  rw [readN, if_pos h, List.take_left, List.drop_left]

/-- Reading chunked data laid out back to back yields the chunks. -/
theorem readChunks_exact (cs : List (List Nat)) (r : List Nat) (size : Nat)
    (h : ∀ c ∈ cs, c.length = size) :
    readChunks cs.length size (cs.join ++ r) = some (cs, r) := by
  induction cs with
  | nil => simp [readChunks]
  | cons c cs ih =>
    have hc : c.length = size := h c (by simp)
    have ih2 := ih (fun x hx => h x (by simp [hx]))
    have hr : readN size (c ++ (cs.join ++ r)) = some (c, cs.join ++ r) := by
      rw [← hc]
      exact readN_exact c (cs.join ++ r)
    simp [readChunks, List.append_assoc, hr, ih2]

/-- Reading a full 32-byte packet body laid out as id, EEG chunks, AUX
chunks, stop byte. -/
theorem read_packet_exact (pid sb : Nat) (eeg aux : List (List Nat)) (r : List Nat)
    (heL : eeg.length = 8) (he : ∀ c ∈ eeg, c.length = 3)
    (haL : aux.length = 3) (ha : ∀ c ∈ aux, c.length = 2) :
    read_packet (pid :: (eeg.join ++ (aux.join ++ sb :: r))) =
      some ({ packet_id := pid, eeg := eeg, aux := aux, stop_byte := sb }, r) := by
  have h1 : readN 1 (pid :: (eeg.join ++ (aux.join ++ sb :: r))) =
      some ([pid], eeg.join ++ (aux.join ++ sb :: r)) := by
    simpa using readN_exact [pid] (eeg.join ++ (aux.join ++ sb :: r))
  have h2 : readChunks 8 3 (eeg.join ++ (aux.join ++ sb :: r)) =
      some (eeg, aux.join ++ sb :: r) := by
    have := readChunks_exact eeg (aux.join ++ sb :: r) 3 he
    rwa [heL] at this
  have h3 : readChunks 3 2 (aux.join ++ sb :: r) = some (aux, sb :: r) := by
    have := readChunks_exact aux (sb :: r) 2 ha
    rwa [haL] at this
  have h4 : readN 1 (sb :: r) = some ([sb], r) := by
    simpa using readN_exact [sb] r
  simp [read_packet, h1, h2, h3, h4]

/-- Serialization of one 33-byte wire packet: start byte, packet id,
8 × 3 EEG bytes, 3 × 2 AUX bytes, stop byte. -/
def packetBytes (pid : Nat) (eeg aux : List (List Nat)) (sb : Nat) : List Nat :=
  START_BYTE :: pid :: (eeg.join ++ (aux.join ++ [sb]))

/-- Length of a decoded EEG list equals the number of raw chunks. -/
theorem parse_eeg_list_length (st : Cyton) (raws : List (List Nat)) :
    (st.parse_eeg_list raws).length = raws.length := by
  simp [Cyton.parse_eeg_list, List.enum_length]

/-- Reading one parsed packet from a stream that begins with a full
wire packet. -/
theorem read_packet_parsed_exact (st : Cyton) (pid sb : Nat)
    (eeg aux : List (List Nat)) (r : List Nat)
    (heL : eeg.length = 8) (he : ∀ c ∈ eeg, c.length = 3)
    (haL : aux.length = 3) (ha : ∀ c ∈ aux, c.length = 2) :
    st.read_packet_parsed (packetBytes pid eeg aux sb ++ r) =
      Except.ok ({ packet_id := pid, eeg := st.parse_eeg_list eeg,
                   aux := parse_aux aux }, r) := by
  have hs : packetBytes pid eeg aux sb ++ r =
      START_BYTE :: pid :: (eeg.join ++ (aux.join ++ sb :: r)) := by
    simp [packetBytes]
  have hw : wait_start_byte (START_BYTE :: pid :: (eeg.join ++ (aux.join ++ sb :: r))) =
      Except.ok (0, pid :: (eeg.join ++ (aux.join ++ sb :: r))) := by
    simp [wait_start_byte, wait_start_byte_go]
  rw [hs]
  simp [Cyton.read_packet_parsed, hw, except_bind_ok,
    read_packet_exact pid sb eeg aux r heL he haL ha]

/-- C4: when `daisy_attached` is true, `read_sample` reads two full
packets and returns a sample whose EEG list has 16 elements (the first
packet's 8 channels followed by the second packet's 8), with packet id
and AUX taken from the first packet; when `daisy_attached` is false it
returns exactly one packet's 8 EEG channels. -/
theorem C4_read_sample_daisy (st : Cyton)
    (pid1 pid2 sb1 sb2 : Nat) (eeg1 eeg2 aux1 aux2 : List (List Nat))
    (he1L : eeg1.length = 8) (he1 : ∀ c ∈ eeg1, c.length = 3)
    (ha1L : aux1.length = 3) (ha1 : ∀ c ∈ aux1, c.length = 2)
    (he2L : eeg2.length = 8) (he2 : ∀ c ∈ eeg2, c.length = 3)
    (ha2L : aux2.length = 3) (ha2 : ∀ c ∈ aux2, c.length = 2) :
    (st.daisy_attached = true →
      st.read_sample
          (packetBytes pid1 eeg1 aux1 sb1 ++ packetBytes pid2 eeg2 aux2 sb2) =
        Except.ok ({ packet_id := pid1,
                     eeg := st.parse_eeg_list eeg1 ++ st.parse_eeg_list eeg2,
                     aux := parse_aux aux1 }, []) ∧
      (st.parse_eeg_list eeg1 ++ st.parse_eeg_list eeg2).length = 16) ∧
    (st.daisy_attached = false →
      st.read_sample (packetBytes pid1 eeg1 aux1 sb1) =
        Except.ok ({ packet_id := pid1, eeg := st.parse_eeg_list eeg1,
                     aux := parse_aux aux1 }, []) ∧
      (st.parse_eeg_list eeg1).length = 8) := by
  have h1 := read_packet_parsed_exact st pid1 sb1 eeg1 aux1
    (packetBytes pid2 eeg2 aux2 sb2) he1L he1 ha1L ha1
  have h2 := read_packet_parsed_exact st pid2 sb2 eeg2 aux2 [] he2L he2 ha2L ha2
  rw [List.append_nil] at h2
  have h1n := read_packet_parsed_exact st pid1 sb1 eeg1 aux1 [] he1L he1 ha1L ha1
  rw [List.append_nil] at h1n
  constructor
  · intro hd
    constructor
    · simp [Cyton.read_sample, h1, h2, hd, except_bind_ok, except_map_ok]
    · simp [parse_eeg_list_length, he1L, he2L]
  · intro hd
    constructor
    · simp [Cyton.read_sample, h1n, hd, except_bind_ok, except_map_ok]
    · simp [parse_eeg_list_length, he1L]

/-- Witness for C4 at two zero-payload packets with ids 119 and 120. -/
theorem C4_read_sample_daisy_witness :
    (({ instream := [], daisy_attached := true } : Cyton).daisy_attached = true →
      ({ instream := [], daisy_attached := true } : Cyton).read_sample
          (packetBytes 119 (List.replicate 8 (List.replicate 3 0))
             (List.replicate 3 (List.replicate 2 0)) 0xC0 ++
           packetBytes 120 (List.replicate 8 (List.replicate 3 0))
             (List.replicate 3 (List.replicate 2 0)) 0xC0) =
        Except.ok ({ packet_id := 119,
                     eeg := ({ instream := [], daisy_attached := true } : Cyton).parse_eeg_list
                         (List.replicate 8 (List.replicate 3 0)) ++
                       ({ instream := [], daisy_attached := true } : Cyton).parse_eeg_list
                         (List.replicate 8 (List.replicate 3 0)),
                     aux := parse_aux (List.replicate 3 (List.replicate 2 0)) }, []) ∧
      (({ instream := [], daisy_attached := true } : Cyton).parse_eeg_list
           (List.replicate 8 (List.replicate 3 0)) ++
         ({ instream := [], daisy_attached := true } : Cyton).parse_eeg_list
           (List.replicate 8 (List.replicate 3 0))).length = 16) ∧
    (({ instream := [], daisy_attached := true } : Cyton).daisy_attached = false →
      ({ instream := [], daisy_attached := true } : Cyton).read_sample
          (packetBytes 119 (List.replicate 8 (List.replicate 3 0))
             (List.replicate 3 (List.replicate 2 0)) 0xC0) =
        Except.ok ({ packet_id := 119,
                     eeg := ({ instream := [], daisy_attached := true } : Cyton).parse_eeg_list
                         (List.replicate 8 (List.replicate 3 0)),
                     aux := parse_aux (List.replicate 3 (List.replicate 2 0)) }, []) ∧
      (({ instream := [], daisy_attached := true } : Cyton).parse_eeg_list
           (List.replicate 8 (List.replicate 3 0))).length = 8) :=
  C4_read_sample_daisy _ 119 120 0xC0 0xC0 _ _ _ _
    (by decide) (by decide) (by decide) (by decide)
    (by decide) (by decide) (by decide) (by decide)

/-! ## C7 -/

/-- C7: `start_streaming` always writes the single byte `b'b'` and sets
`streaming` to true; it additionally consumes exactly one
`$$$`-terminated acknowledgement reply when `wifi_attached` is true,
and consumes zero replies when `wifi_attached` is false. -/
theorem C7_start_streaming (st : Cyton) (msg rest : List Char)
    (hread : read_until st.instream = (msg, rest))
    (hvalid : validate_message msg = none) :
    ((st.start_streaming).1.written = st.written ++ ['b'] ∧
     (st.start_streaming).1.streaming = true) ∧
    (st.wifi_attached = true →
      st.start_streaming =
        ({ st with written := st.written ++ ['b'], streaming := true,
                   instream := rest }, Except.ok ())) ∧
    (st.wifi_attached = false →
      st.start_streaming =
        ({ st with written := st.written ++ ['b'], streaming := true },
         Except.ok ())) := by
  cases hw : st.wifi_attached with
  | false =>
    refine ⟨⟨?_, ?_⟩, ?_, ?_⟩ <;>
      simp [Cyton.start_streaming, hw]
  | true =>
    refine ⟨⟨?_, ?_⟩, ?_, ?_⟩ <;>
      simp [Cyton.start_streaming, Cyton.read_message, hw, hread, hvalid,
        Except.map]

/-- Witness for C7 with wifi attached and a pending `ACK$$$` reply. -/
theorem C7_start_streaming_witness :
    ({ instream := "ACK$$$".toList, wifi_attached := true } : Cyton).start_streaming =
      ({ instream := [], written := ['b'], streaming := true,
         wifi_attached := true }, Except.ok ()) :=
  (C7_start_streaming
      ({ instream := "ACK$$$".toList, wifi_attached := true } : Cyton)
      "ACK$$$".toList [] rfl rfl).2.1 rfl

/-! ## C9 -/

/-- Decoding table written from the spec's sentence "decoding the
encoded command recovers `r`": the inverse of the sample-rate encoding
table, for the round-trip statement. -/
def spec_decode_sample_rate (c : Char) : Option Nat :=
  if c = '6' then some 250 else if c = '5' then some 500
  else if c = '4' then some 1000 else if c = '3' then some 2000
  else if c = '2' then some 4000 else if c = '1' then some 8000
  else if c = '0' then some 16000 else none

/-- C9: `set_sample_rate` encodes each supported rate as `b'~'` plus the
literal table code (250 → '6', ..., 16000 → '0'); the map is injective,
so decoding the encoded command recovers the rate; any value outside
the supported set raises `ValueError` before any byte is written. -/
theorem C9_set_sample_rate (st : Cyton) (r : Nat) (msg rest : List Char)
    (hread : read_until st.instream = (msg, rest))
    (hvalid : validate_message msg = none) :
    (sample_rate_code 250 = some '6' ∧ sample_rate_code 500 = some '5' ∧
     sample_rate_code 1000 = some '4' ∧ sample_rate_code 2000 = some '3' ∧
     sample_rate_code 4000 = some '2' ∧ sample_rate_code 8000 = some '1' ∧
     sample_rate_code 16000 = some '0') ∧
    (∀ r1 c, sample_rate_code r1 = some c →
      spec_decode_sample_rate c = some r1) ∧
    (sample_rate_code r = none →
      st.set_sample_rate r = (st, Except.error OpErr.valueError)) ∧
    (∀ c, sample_rate_code r = some c →
      st.set_sample_rate r =
        ({ st with written := st.written ++ ['~', c], instream := rest,
                   sample_rate := parse_sample_rate msg },
         Except.ok (parse_sample_rate msg))) := by
  refine ⟨⟨rfl, rfl, rfl, rfl, rfl, rfl, rfl⟩, ?_, ?_, ?_⟩
  · intro r1 c h
    unfold sample_rate_code at h
    split_ifs at h <;>
      (injection h with h; subst h; subst_vars; rfl)
  · intro h
    simp [Cyton.set_sample_rate, h]
  · intro c hc
    have hmem : c ∈ commonSampleRateBytes := by
      unfold sample_rate_code at hc
      split_ifs at hc <;>
        (injection hc with hc; subst hc; decide)
    simp [Cyton.set_sample_rate, hc, hmem, Cyton.read_message, hread, hvalid]

/-- Witness for C9 at rate 250 with a pending sample-rate reply. -/
theorem C9_set_sample_rate_witness :
    ({ instream := "Success: Sample rate is 250Hz$$$".toList } : Cyton).set_sample_rate 250 =
      ({ instream := [], written := ['~', '6'], sample_rate := some 250 },
       Except.ok (some 250)) :=
  (C9_set_sample_rate
      ({ instream := "Success: Sample rate is 250Hz$$$".toList } : Cyton)
      250 "Success: Sample rate is 250Hz$$$".toList [] rfl rfl).2.2.2 '6' rfl

/-! ## C10 -/

/-- C10: for every successfully validated reply message `m`,
`get_wifi_status` sets `wifi_attached` to true exactly when the
substring `'not present'` does not occur in `m`, and returns `m` — a
query operation that mutates `wifi_attached`. -/
theorem C10_get_wifi_status (st : Cyton) (msg rest : List Char)
    (hread : read_until st.instream = (msg, rest))
    (hvalid : validate_message msg = none) :
    st.get_wifi_status =
      ({ st with written := st.written ++ [':'], instream := rest,
                 wifi_attached := ¬ containsSub notPresentStr msg },
       Except.ok msg) ∧
    ((st.get_wifi_status).1.wifi_attached = true ↔
      containsSub notPresentStr msg = false) := by
  have h : st.get_wifi_status =
      ({ st with written := st.written ++ [':'], instream := rest,
                 wifi_attached := ¬ containsSub notPresentStr msg },
       Except.ok msg) := by
    simp [Cyton.get_wifi_status, Cyton.read_message, hread, hvalid]
  refine ⟨h, ?_⟩
  rw [h]
  by_cases hc : containsSub notPresentStr msg <;> simp [hc]

/-- Witness for C10 at a reply reporting the shield not present. -/
theorem C10_get_wifi_status_witness :
    ({ instream := "WiFi not present$$$".toList } : Cyton).get_wifi_status =
      ({ instream := [], written := [':'], wifi_attached := false },
       Except.ok "WiFi not present$$$".toList) :=
  (C10_get_wifi_status
      ({ instream := "WiFi not present$$$".toList } : Cyton)
      "WiFi not present$$$".toList [] rfl rfl).1
